import Mathlib

/-!
Verification of the clap-ftxui-support library.

Shallow embedding of:
* the embedded_terminal window registry (src/embedded-terminal.cpp,
  src/embedded-terminal.h),
* the lifecycle coordinator, render loop and parameter queue
  (src/ftxui-clap-support.cpp),
* the per-platform renderer fragments relevant to the verified claims
  (src/embedded-terminal-linux.cpp, src/embedded-terminal-windows.cpp),
* the library-default editor hooks
  (include/ftxui-clap-support/ftxui-clap-editor.h).

Conventions of the embedding:
* Editor pointers are modelled as `Option Nat` (`none` is a null pointer);
  a non-null editor is identified by a `Nat`, which also plays the role of
  the string key `std::to_string(reinterpret_cast<uintptr_t>(editor))` used
  by the registry (the pointer-to-string map is injective).
* `std::unordered_map` is modelled as an association list with unique keys:
  `operator[]` assignment replaces the (unique) existing entry or appends,
  lookup returns the first entry with the key, `erase(it)` drops it.
* C++ `int` arithmetic is `Int` with `Int.tdiv` for `/` (truncation toward
  zero); no overflow occurs at the ranges exercised here.
* Platform calls (X11 / Win32 / Direct2D) are external effects; their
  success is passed in as an explicit boolean or function where the source
  branches on it, and their side effects outside the process state are
  dropped.
* Virtual methods of ftxui_clap_editor are an `EditorHooks` record supplied
  per editor; the reference-parameter signatures `adjustSize(int&, int&)`
  and `getPreferredSize(int&, int&)` become in-out functions.
-/

namespace ClapFtxui

/-- Model of embedded_terminal::editor_window (embedded-terminal.h lines
43-49): per-window record held by the registry. -/
structure EditorWindow where
  content : String
  platform_handle : Option Nat
  width : Int
  height : Int
  visible : Bool
deriving DecidableEq

/-- Lookup in the registry's unordered_map `editors_`: first entry whose
key equals the editor id (keys are unique by construction). -/
def lookupWindow : List (Nat × EditorWindow) → Nat → Option EditorWindow
  | [], _ => none
  | p :: rest, id => if p.1 == id then some p.2 else lookupWindow rest id

/-- Replacement of the value at a key by `f` (the registry mutating its
found iterator in place); a list without the key is returned unchanged,
mirroring the `if (it != editors_.end())` guard. -/
def updateWindows (f : EditorWindow → EditorWindow) :
    List (Nat × EditorWindow) → Nat → List (Nat × EditorWindow)
  | [], _ => []
  | p :: rest, id =>
    if p.1 == id then (p.1, f p.2) :: rest else p :: updateWindows f rest id

/-- unordered_map::erase of the (unique) entry with the key; a list without
the key is returned unchanged. -/
def removeWindow : List (Nat × EditorWindow) → Nat → List (Nat × EditorWindow)
  | [], _ => []
  | p :: rest, id => if p.1 == id then rest else p :: removeWindow rest id

/-- unordered_map `operator[]` assignment: replace the existing entry or
append a fresh one. -/
def insertWindow : List (Nat × EditorWindow) → Nat → EditorWindow →
    List (Nat × EditorWindow)
  | [], id, w => [(id, w)]
  | p :: rest, id, w =>
    if p.1 == id then (id, w) :: rest else p :: insertWindow rest id w

/-- Model of the embedded_terminal registry (embedded-terminal.h line 51):
the map from editor identifier to window record.  The mutex only
serialises access and has no sequential content. -/
structure EmbeddedTerminal where
  editors : List (Nat × EditorWindow)
deriving DecidableEq

/-- Registry lookup, as performed by each operation of
embedded-terminal.cpp. -/
def findWindow (t : EmbeddedTerminal) (id : Nat) : Option EditorWindow :=
  lookupWindow t.editors id

/-- embedded_terminal::update_content (embedded-terminal.cpp lines 24-33):
overwrite the stored content if the id is registered, else do nothing.
The trailing platform_update_window repaint is an external effect. -/
def update_content (t : EmbeddedTerminal) (id : Nat) (content : String) :
    EmbeddedTerminal :=
  ⟨updateWindows (fun w => { w with content := content }) t.editors id⟩

/-- embedded_terminal::remove_editor (embedded-terminal.cpp lines 35-43):
destroy the platform window (external) and erase the record if the id is
registered, else do nothing. -/
def remove_editor (t : EmbeddedTerminal) (id : Nat) : EmbeddedTerminal :=
  ⟨removeWindow t.editors id⟩

/-- embedded_terminal::resize_window (embedded-terminal.cpp lines 62-72):
update the stored pixel size if the id is registered, else do nothing. -/
def resize_window (t : EmbeddedTerminal) (id : Nat) (width height : Int) :
    EmbeddedTerminal :=
  ⟨updateWindows (fun w => { w with width := width, height := height })
    t.editors id⟩

/-- embedded_terminal::show_window (embedded-terminal.cpp lines 74-83):
update the stored visibility flag if the id is registered, else do
nothing. -/
def show_window (t : EmbeddedTerminal) (id : Nat) (visible : Bool) :
    EmbeddedTerminal :=
  ⟨updateWindows (fun w => { w with visible := visible }) t.editors id⟩

/-- embedded_terminal::create_window (embedded-terminal.cpp lines 45-60):
build a record carrying the requested size, attempt the platform window
creation (outcome `platform_ok`, produced native handle `handle`), and on
success store the record under the id; on failure the registry is
untouched.  `x`/`y` are forwarded to the platform call only. -/
def create_window (t : EmbeddedTerminal) (id : Nat) (_parent : Nat)
    (_x _y : Int) (width height : Int) (platform_ok : Bool) (handle : Nat) :
    Bool × EmbeddedTerminal :=
  if platform_ok then
    (true, ⟨insertWindow t.editors id
      { content := "", platform_handle := some handle,
        width := width, height := height, visible := false }⟩)
  else (false, t)

/-- Virtual hook set of one ftxui_clap_editor instance
(ftxui-clap-editor.h).  `adjustSize` and `getPreferredSize` take the
current cols/rows and return the (possibly) written-through values,
modelling the `int&` parameters; `componentNonNull` tells whether
onCreateComponent returns a non-null component. -/
structure EditorHooks where
  adjustSize : Int → Int → Bool × Int × Int
  getPreferredSize : Int → Int → Int × Int
  componentNonNull : Bool

/-- Library-default ftxui_clap_editor::adjustSize (ftxui-clap-editor.h
lines 72-86): clamp cols to [40, 120] and rows to [10, 40], return true. -/
def defaultAdjustSize (cols rows : Int) : Bool × Int × Int :=
  let cols := if cols < 40 then 40 else cols
  let rows := if rows < 10 then 10 else rows
  let cols := if cols > 120 then 120 else cols
  let rows := if rows > 40 then 40 else rows
  (true, cols, rows)

/-- Library-default ftxui_clap_editor::getPreferredSize (ftxui-clap-editor.h
lines 57-60): write 80 and 24 regardless of the current values. -/
def defaultGetPreferredSize (_cols _rows : Int) : Int × Int := (80, 24)

/-- Hook record of an editor that overrides nothing. -/
def defaultEditorHooks : EditorHooks :=
  { adjustSize := defaultAdjustSize,
    getPreferredSize := defaultGetPreferredSize,
    componentNonNull := true }

/-- Model of FTXUIContext (ftxui-clap-support.cpp lines 17-26): the
coordinator's per-editor record behind the opaque editor->ctx pointer.
The ftxui component is opaque, so only its non-nullness is kept. -/
structure FTXUIContext where
  cols : Int
  rows : Int
  visible : Bool
  component : Bool
  terminal : Option EmbeddedTerminal
deriving DecidableEq

/-- Freshly constructed FTXUIContext: cols 80, rows 24, hidden, component
and terminal null (ftxui-clap-support.cpp lines 21-25). -/
def newFTXUIContext : FTXUIContext :=
  { cols := 80, rows := 24, visible := false, component := false,
    terminal := none }

/-- Reading editor->ctx: per-editor context map as an association list
(`none` is a null ctx pointer). -/
def getCtx : List (Nat × FTXUIContext) → Nat → Option FTXUIContext
  | [], _ => none
  | p :: rest, e => if p.1 == e then some p.2 else getCtx rest e

/-- Writing editor->ctx: replace the existing entry or append a fresh
one. -/
def setCtx : List (Nat × FTXUIContext) → Nat → FTXUIContext →
    List (Nat × FTXUIContext)
  | [], e, c => [(e, c)]
  | p :: rest, e, c =>
    if p.1 == e then (e, c) :: rest else p :: setCtx rest e c

/-- Deleting a context (`delete ctx; editor->ctx = nullptr`). -/
def removeCtx (l : List (Nat × FTXUIContext)) (e : Nat) :
    List (Nat × FTXUIContext) :=
  l.filter (fun p => p.1 != e)

/-- Model of parameter_update (ftxui-clap-support.cpp lines 36-40).  The
double `value` never influences control flow, so it is carried as an
integer payload. -/
structure parameter_update where
  param_id : Nat
  value : Int
  editor : Option Nat
deriving DecidableEq

/-- Process-wide state of ftxui-clap-support.cpp lines 28-43: the global
terminal, the active-editor list, the parameter queue, and every editor's
ctx pointer.  `platformOk` is the environment fact whether the platform
subsystem (display connection / window class) can be acquired; it is a
constant of a run.  The render thread object and mutexes have no
sequential content. -/
structure GlobalState where
  platformOk : Bool
  g_terminal : Option EmbeddedTerminal
  g_active_editors : List Nat
  g_parameter_queue : List parameter_update
  ctxs : List (Nat × FTXUIContext)
deriving DecidableEq

/-- Process state at load time: no terminal, no editors, empty queue. -/
def initState (platform_ok : Bool) : GlobalState :=
  { platformOk := platform_ok, g_terminal := none, g_active_editors := [],
    g_parameter_queue := [], ctxs := [] }

/-- ftxui_clap_support::initialize (ftxui-clap-support.cpp lines 93-112),
renamed: returns true immediately when already initialized; otherwise
creates the global embedded_terminal, and on platform failure resets it
and reports false (leaving the state as before); on success the render
thread is started (an external effect). -/
def lib_init (s : GlobalState) : Bool × GlobalState :=
  match s.g_terminal with
  | some _ => (true, s)
  | none =>
    if s.platformOk then (true, { s with g_terminal := some ⟨[]⟩ })
    else (false, s)

/-- ftxui_clap_support::queue_parameter_update (ftxui-clap-support.cpp
lines 148-152): push at the back of the FIFO queue. -/
def queue_parameter_update (s : GlobalState) (pid : Nat) (value : Int)
    (editor : Option Nat) : GlobalState :=
  let u : parameter_update := { param_id := pid, value := value, editor := editor }
  { s with g_parameter_queue := s.g_parameter_queue ++ [u] }

/-- Drain step of render_loop (ftxui-clap-support.cpp lines 48-59): pop
the queue front to back until empty; for each update with a non-null
editor invoke editor->onParameterUpdate().  Returns the sequence of
editors on which the callback fires, in invocation order, together with
the queue left behind. -/
def drain_queue : List parameter_update → List Nat × List parameter_update
  | [] => ([], [])
  | u :: rest =>
    match u.editor with
    | some e =>
      let r := drain_queue rest
      (e :: r.1, r.2)
    | none => drain_queue rest

/-- Per-editor body of the render loop (ftxui-clap-support.cpp lines
69-87): skip a null editor ctx; for a visible ctx with a component,
render the component to a cols-by-rows screen (the opaque outcome is
`renderFn e cols rows`) and push it into the global terminal under the
editor's id, when the global terminal exists. -/
def render_editor_step (renderFn : Nat → Int → Int → String)
    (st : GlobalState) (e : Nat) : GlobalState :=
  match getCtx st.ctxs e with
  | none => st
  | some c =>
    if c.visible && c.component then
      match st.g_terminal with
      | some t =>
        let t1 := update_content t e (renderFn e c.cols c.rows)
        { st with g_terminal := some t1 }
      | none => st
    else st

/-- Rendering pass over a snapshot of the active editors. -/
def render_pass (renderFn : Nat → Int → Int → String) (st : GlobalState)
    (l : List Nat) : GlobalState :=
  l.foldl (render_editor_step renderFn) st

/-- One iteration of render_loop (ftxui-clap-support.cpp lines 46-91):
drain the parameter queue (the callbacks are external), snapshot
g_active_editors, render every visible editor of the snapshot, sleep. -/
def render_iteration (renderFn : Nat → Int → Int → String)
    (s : GlobalState) : GlobalState :=
  let s1 := { s with g_parameter_queue := (drain_queue s.g_parameter_queue).2 }
  render_pass renderFn s1 s1.g_active_editors

/-- ftxui_clap_guiCreateWith (ftxui-clap-support.cpp lines 157-184): null
editor fails; initialize the library (fails without touching anything
else); allocate a fresh context into editor->ctx, register the editor at
the back of g_active_editors, fire onGuiCreate (external), then store the
component produced by onCreateComponent.  Note there is no check whether
editor->ctx was already set. -/
def ftxui_clap_guiCreateWith (hooks : Nat → EditorHooks) (s : GlobalState)
    (editor : Option Nat) : Bool × GlobalState :=
  match editor with
  | none => (false, s)
  | some e =>
    match lib_init s with
    | (false, s1) => (false, s1)
    | (true, s1) =>
      let s2 := { s1 with ctxs := setCtx s1.ctxs e newFTXUIContext }
      let s3 := { s2 with g_active_editors := s2.g_active_editors ++ [e] }
      let c2 := { newFTXUIContext with component := (hooks e).componentNonNull }
      let s4 := { s3 with ctxs := setCtx s3.ctxs e c2 }
      (true, s4)

/-- ftxui_clap_guiDestroyWith (ftxui-clap-support.cpp lines 186-207): no
effect on a null editor or null ctx; otherwise fire onGuiDestroy
(external), call remove_editor on the context's terminal when present,
unregister the editor (std::remove erases every occurrence), and delete
the context.  Deleting the context destroys its embedded_terminal member
as well, so the net state effect is dropping the ctx entry and filtering
the active list; the remove_editor call's registry erase is subsumed by
the terminal's destruction. -/
def ftxui_clap_guiDestroyWith (s : GlobalState) (editor : Option Nat) :
    GlobalState :=
  match editor with
  | none => s
  | some e =>
    match getCtx s.ctxs e with
    | none => s
    | some _ =>
      { s with ctxs := removeCtx s.ctxs e,
               g_active_editors :=
                 s.g_active_editors.filter (fun x => x != e) }

/-- Continuation of ftxui_clap_guiSetParentWith after the context's
terminal exists (ftxui-clap-support.cpp lines 224-241): a null platform
handle in the clap_window fails without creating a window; otherwise
create the child window sized cols*8 by rows*16 at the origin. -/
def attach_window (s : GlobalState) (e : Nat) (c : FTXUIContext)
    (parent_handle : Option Nat) (create_ok : Bool) (handle : Nat) :
    Bool × GlobalState :=
  match parent_handle with
  | none => (false, s)
  | some p =>
    match c.terminal with
    | none => (false, s)
    | some t =>
      let r := create_window t e p 0 0 (c.cols * 8) (c.rows * 16)
        create_ok handle
      let c2 := { c with terminal := some r.2 }
      (r.1, { s with ctxs := setCtx s.ctxs e c2 })

/-- ftxui_clap_guiSetParentWith (ftxui-clap-support.cpp lines 209-242):
null editor, null ctx or null window fails; a missing per-context
terminal is created and initialized (on initialization failure the
fresh terminal stays stored and false is returned); then the window is
attached.  `window` is `none` for a null clap_window pointer, and carries
the platform-specific handle (itself possibly null) otherwise.
`create_ok`/`handle` stand for the platform window-creation outcome. -/
def ftxui_clap_guiSetParentWith (s : GlobalState) (editor : Option Nat)
    (window : Option (Option Nat)) (create_ok : Bool) (handle : Nat) :
    Bool × GlobalState :=
  match editor with
  | none => (false, s)
  | some e =>
  match getCtx s.ctxs e with
  | none => (false, s)
  | some c =>
  match window with
  | none => (false, s)
  | some parent_handle =>
    match c.terminal with
    | some _ => attach_window s e c parent_handle create_ok handle
    | none =>
      let c1 := { c with terminal := some (⟨[]⟩ : EmbeddedTerminal) }
      let s1 := { s with ctxs := setCtx s.ctxs e c1 }
      if s.platformOk then attach_window s1 e c1 parent_handle create_ok handle
      else (false, s1)

/-- ftxui_clap_guiSetSizeWith (ftxui-clap-support.cpp lines 244-269): null
editor or ctx fails; convert pixels to cells by truncating division by 8
and 16, clamp to [40, 120] and [10, 40], let the editor's adjustSize
rewrite the pair (falling back to getPreferredSize on the values it left
when it returns false), store the pair, return true. -/
def ftxui_clap_guiSetSizeWith (hooks : Nat → EditorHooks) (s : GlobalState)
    (editor : Option Nat) (width height : Int) : Bool × GlobalState :=
  match editor with
  | none => (false, s)
  | some e =>
  match getCtx s.ctxs e with
  | none => (false, s)
  | some c =>
    let cols0 := width.tdiv 8
    let rows0 := height.tdiv 16
    let cols1 := max 40 (min 120 cols0)
    let rows1 := max 10 (min 40 rows0)
    let a := (hooks e).adjustSize cols1 rows1
    let final := if a.1 then a.2 else (hooks e).getPreferredSize a.2.1 a.2.2
    let c2 := { c with cols := final.1, rows := final.2 }
    (true, { s with ctxs := setCtx s.ctxs e c2 })

/-- ftxui_clap_guiShowWith (ftxui-clap-support.cpp lines 271-279): null
editor or ctx fails; otherwise set the visibility flag. -/
def ftxui_clap_guiShowWith (s : GlobalState) (editor : Option Nat) :
    Bool × GlobalState :=
  match editor with
  | none => (false, s)
  | some e =>
  match getCtx s.ctxs e with
  | none => (false, s)
  | some c =>
    (true, { s with ctxs := setCtx s.ctxs e { c with visible := true } })

/-- ftxui_clap_guiHideWith (ftxui-clap-support.cpp lines 281-289): null
editor or ctx fails; otherwise clear the visibility flag. -/
def ftxui_clap_guiHideWith (s : GlobalState) (editor : Option Nat) :
    Bool × GlobalState :=
  match editor with
  | none => (false, s)
  | some e =>
  match getCtx s.ctxs e with
  | none => (false, s)
  | some c =>
    (true, { s with ctxs := setCtx s.ctxs e { c with visible := false } })

/-- ftxui_clap_guiGetSizeWith (ftxui-clap-support.cpp lines 291-303): null
editor or ctx fails leaving the out-parameters untouched; otherwise write
cols*8 and rows*16.  The in-out pixel pair is threaded explicitly. -/
def ftxui_clap_guiGetSizeWith (s : GlobalState) (editor : Option Nat)
    (width height : Int) : Bool × Int × Int :=
  match editor with
  | none => (false, width, height)
  | some e =>
  match getCtx s.ctxs e with
  | none => (false, width, height)
  | some c => (true, c.cols * 8, c.rows * 16)

/-- Boundary operations a host may issue, with the per-call environment
data (window descriptor contents, platform outcomes, queued payloads); a
render-loop iteration is included since it runs interleaved with them. -/
inductive Op where
  | guiCreate (editor : Option Nat)
  | guiDestroy (editor : Option Nat)
  | guiSetParent (editor : Option Nat) (window : Option (Option Nat))
      (create_ok : Bool) (handle : Nat)
  | guiSetSize (editor : Option Nat) (width height : Int)
  | guiShow (editor : Option Nat)
  | guiHide (editor : Option Nat)
  | guiGetSize (editor : Option Nat)
  | queueParam (pid : Nat) (value : Int) (editor : Option Nat)
  | renderIter

/-- State effect of one boundary operation. -/
def step (hooks : Nat → EditorHooks) (renderFn : Nat → Int → Int → String)
    (s : GlobalState) : Op → GlobalState
  | .guiCreate ed => (ftxui_clap_guiCreateWith hooks s ed).2
  | .guiDestroy ed => ftxui_clap_guiDestroyWith s ed
  | .guiSetParent ed w ok hnd => (ftxui_clap_guiSetParentWith s ed w ok hnd).2
  | .guiSetSize ed w h => (ftxui_clap_guiSetSizeWith hooks s ed w h).2
  | .guiShow ed => (ftxui_clap_guiShowWith s ed).2
  | .guiHide ed => (ftxui_clap_guiHideWith s ed).2
  | .guiGetSize _ => s
  | .queueParam pid v ed => queue_parameter_update s pid v ed
  | .renderIter => render_iteration renderFn s

/-- Execution of a sequence of boundary operations. -/
def run (hooks : Nat → EditorHooks) (renderFn : Nat → Int → Int → String)
    (s : GlobalState) : List Op → GlobalState
  | [] => s
  | op :: rest => run hooks renderFn (step hooks renderFn s op) rest

/-- Sequence discipline under which re-registration never happens: every
guiCreate in the list targets an editor whose ctx pointer is null at that
point. -/
def safeOps (hooks : Nat → EditorHooks) (renderFn : Nat → Int → Int → String)
    (s : GlobalState) : List Op → Bool
  | [] => true
  | op :: rest =>
    (match op with
     | Op.guiCreate (some e) => (getCtx s.ctxs e).isNone
     | _ => true) && safeOps hooks renderFn (step hooks renderFn s op) rest

/-- Whether no window record keyed by editor id `e` survives anywhere: in
the global terminal or in any live context's terminal. -/
def recordAbsent (s : GlobalState) (e : Nat) : Bool :=
  (match s.g_terminal with
   | none => true
   | some t => (findWindow t e).isNone) &&
  s.ctxs.all (fun pr =>
    match pr.2.terminal with
    | none => true
    | some t => (findWindow t e).isNone)

/-- Content of the window record the global terminal keeps for editor
`e`, if any. -/
def registryContent (s : GlobalState) (e : Nat) : Option String :=
  match s.g_terminal with
  | none => none
  | some t => (findWindow t e).map (fun w => w.content)

/-- Splitting of content into lines exactly as the std::getline loop of
LinuxTerminalRenderer::parse_terminal_content (embedded-terminal-linux.cpp
lines 127-136): a line per newline-terminated segment, a trailing segment
only when nonempty, nothing for empty content. -/
def split_aux : List Char → List Char → List String
  | [], cur => if cur.isEmpty then [] else [String.mk cur.reverse]
  | c :: rest, cur =>
    if c = '\n' then String.mk cur.reverse :: split_aux rest []
    else split_aux rest (c :: cur)

/-- Wrapper of split_aux on a String. -/
def parse_terminal_content (content : String) : List String :=
  split_aux content.data []

/-- Drawing loop of LinuxTerminalRenderer::render (embedded-terminal-linux
.cpp lines 150-163): walk the lines with the baseline starting at
char_height, break once it exceeds the window height, draw nonempty lines,
advance by char_height each line.  Returns the lines actually handed to
XftDrawStringUtf8, in order. -/
def renderLines (char_height height : Int) :
    List String → Int → List String
  | [], _ => []
  | line :: rest, y =>
    if y > height then []
    else if line = "" then renderLines char_height height rest (y + char_height)
    else line :: renderLines char_height height rest (y + char_height)

/-- LinuxTerminalRenderer::render on an initialized renderer (the guard
on xft_draw_/font_ passed): the lines drawn for given cell height and
window height. -/
def linux_render_drawn (char_height height : Int) (content : String) :
    List String :=
  renderLines char_height height (parse_terminal_content content) char_height

/-- WindowsTerminalRenderer::render (embedded-terminal-windows.cpp lines
111-142): with no render target nothing is drawn; otherwise the whole
content is converted to a wide string and handed to a single
DrawTextLayout call.  Returns the text of that draw call. -/
def windowsRenderDrawnText (has_render_target : Bool) (content : String) :
    Option String :=
  if has_render_target then some content else none

/-- Linux embedded_terminal::platform_create_window (embedded-terminal-
linux.cpp lines 209-250): fails without a display; a null parent handle is
replaced by DefaultRootWindow; XCreateSimpleWindow under that parent is
`xcreate` (none for failure); on renderer-initialization failure the child
window is destroyed again and the call fails.  Returns the created child
handle and the parent actually used. -/
def linux_platform_create_window (display : Option Nat) (defaultRoot : Nat)
    (parent_handle : Option Nat) (xcreate : Nat → Option Nat)
    (renderer_init_ok : Bool) : Option (Nat × Nat) :=
  match display with
  | none => none
  | some _ =>
    let parent := parent_handle.getD defaultRoot
    match xcreate parent with
    | none => none
    | some child =>
      if renderer_init_ok then some (child, parent) else none

/-- Windows embedded_terminal::platform_create_window (embedded-terminal-
windows.cpp lines 215-244): a null parent HWND fails outright; otherwise
CreateWindowEx under the parent is `createWindowEx`, and renderer-
initialization failure destroys the child and fails. -/
def windows_platform_create_window (parent_handle : Option Nat)
    (createWindowEx : Nat → Option Nat) (renderer_init_ok : Bool) :
    Option Nat :=
  match parent_handle with
  | none => none
  | some p =>
    match createWindowEx p with
    | none => none
    | some child => if renderer_init_ok then some child else none

/-- Fixture: hooks of editors that override nothing. -/
def sampleHooks : Nat → EditorHooks := fun _ => defaultEditorHooks

/-- Fixture: a component whose render output is empty. -/
def sampleRenderFn : Nat → Int → Int → String := fun _ _ _ => ""

/-- Fixture: a state holding one created editor 0 with a fresh context. -/
def sampleSizeState : GlobalState :=
  { platformOk := true, g_terminal := none, g_active_editors := [0],
    g_parameter_queue := [], ctxs := [(0, newFTXUIContext)] }

/-- Fixture: a hidden context that has a component. -/
def sampleHiddenCtx : FTXUIContext :=
  { cols := 80, rows := 24, visible := false, component := true,
    terminal := none }

/-- Fixture: a registry record with known content. -/
def sampleWindow : EditorWindow :=
  { content := "old", platform_handle := some 1, width := 640,
    height := 384, visible := true }

/-- Fixture: a state where hidden editor 0 owns a registry record. -/
def sampleRegistryState : GlobalState :=
  { platformOk := true, g_terminal := some ⟨[(0, sampleWindow)]⟩,
    g_active_editors := [0], g_parameter_queue := [],
    ctxs := [(0, sampleHiddenCtx)] }

/-- Fixture: a component whose render output is the string new. -/
def sampleRenderNew : Nat → Int → Int → String := fun _ _ _ => "new"

theorem getCtx_setCtx_self (l : List (Nat × FTXUIContext)) (e : Nat)
    (c : FTXUIContext) : getCtx (setCtx l e c) e = some c := by
  induction l with
  | nil => simp [setCtx, getCtx]
  | cons p rest ih =>
    by_cases h : p.1 = e
    · simp [setCtx, getCtx, h]
    · simp [setCtx, getCtx, h, ih]

theorem getCtx_setCtx_ne (l : List (Nat × FTXUIContext)) (e e' : Nat)
    (c : FTXUIContext) (h : e' ≠ e) :
    getCtx (setCtx l e c) e' = getCtx l e' := by
  induction l with
  | nil => simp [setCtx, getCtx, Ne.symm h]
  | cons p rest ih =>
    by_cases hp : p.1 = e
    · simp [setCtx, getCtx, hp, Ne.symm h]
    · by_cases hp' : p.1 = e'
      · simp [setCtx, getCtx, hp, hp', h]
      · simp [setCtx, getCtx, hp, hp', ih]

theorem mem_setCtx {pr : Nat × FTXUIContext} {l : List (Nat × FTXUIContext)}
    {e : Nat} {c : FTXUIContext} (h : pr ∈ setCtx l e c) :
    pr = (e, c) ∨ pr ∈ l := by
  induction l with
  | nil => simpa [setCtx] using h
  | cons p rest ih =>
    by_cases hp : p.1 = e
    · simp only [setCtx, hp, if_pos, beq_iff_eq] at h
      rcases List.mem_cons.mp h with h | h
      · exact Or.inl h
      · exact Or.inr (List.mem_cons_of_mem _ h)
    · simp only [setCtx, beq_iff_eq, hp, if_false, ite_false] at h
      rcases List.mem_cons.mp h with h | h
      · exact Or.inr (h ▸ List.mem_cons_self _ _)
      · rcases ih h with h | h
        · exact Or.inl h
        · exact Or.inr (List.mem_cons_of_mem _ h)

theorem getCtx_removeCtx_ne (l : List (Nat × FTXUIContext)) (e e' : Nat)
    (h : e' ≠ e) : getCtx (removeCtx l e) e' = getCtx l e' := by
  induction l with
  | nil => simp [removeCtx, getCtx]
  | cons p rest ih =>
    by_cases hp : p.1 = e
    · simpa [removeCtx, getCtx, List.filter_cons, hp, Ne.symm h] using ih
    · by_cases hp' : p.1 = e'
      · simp [removeCtx, getCtx, List.filter_cons, hp, hp', h]
      · simpa [removeCtx, getCtx, List.filter_cons, hp, hp'] using ih

theorem mem_removeCtx {pr : Nat × FTXUIContext} {l : List (Nat × FTXUIContext)}
    {e : Nat} (h : pr ∈ removeCtx l e) : pr ∈ l ∧ pr.1 ≠ e := by
  unfold removeCtx at h
  rw [List.mem_filter] at h
  refine ⟨h.1, ?_⟩
  simpa using h.2

theorem getCtx_eq_none {l : List (Nat × FTXUIContext)} {e : Nat}
    (h : getCtx l e = none) : ∀ pr ∈ l, pr.1 ≠ e := by
  induction l with
  | nil => simp
  | cons p rest ih =>
    intro pr hpr
    by_cases hp : p.1 = e
    · simp [getCtx, hp] at h
    · simp only [getCtx, beq_iff_eq, hp, ite_false, if_false] at h
      rcases List.mem_cons.mp hpr with hq | hq
      · exact hq ▸ hp
      · exact ih h pr hq

theorem getCtx_mem {l : List (Nat × FTXUIContext)} {e : Nat} {c : FTXUIContext}
    (h : getCtx l e = some c) : (e, c) ∈ l := by
  induction l with
  | nil => simp [getCtx] at h
  | cons p rest ih =>
    by_cases hp : p.1 = e
    · simp only [getCtx, beq_iff_eq, hp, ite_true, if_true, Option.some.injEq] at h
      have : p = (e, c) := by
        cases p; simp_all
      exact this ▸ List.mem_cons_self _ _
    · simp only [getCtx, beq_iff_eq, hp, ite_false, if_false] at h
      exact List.mem_cons_of_mem _ (ih h)

theorem lookupWindow_eq_none_of (l : List (Nat × EditorWindow)) (e : Nat)
    (h : ∀ q ∈ l, q.1 ≠ e) : lookupWindow l e = none := by
  induction l with
  | nil => rfl
  | cons p rest ih =>
    have hp : p.1 ≠ e := h p (List.mem_cons_self _ _)
    simp only [lookupWindow, beq_iff_eq, hp, ite_false, if_false]
    exact ih fun q hq => h q (List.mem_cons_of_mem _ hq)

theorem lookupWindow_updateWindows_ne (f : EditorWindow → EditorWindow)
    (l : List (Nat × EditorWindow)) (id e : Nat) (h : e ≠ id) :
    lookupWindow (updateWindows f l id) e = lookupWindow l e := by
  induction l with
  | nil => rfl
  | cons p rest ih =>
    by_cases hp : p.1 = id
    · simp [updateWindows, lookupWindow, hp, Ne.symm h]
    · by_cases hp' : p.1 = e
      · simp [updateWindows, lookupWindow, hp, hp', h]
      · simp [updateWindows, lookupWindow, hp, hp', ih]

theorem updateWindows_of_none (f : EditorWindow → EditorWindow)
    {l : List (Nat × EditorWindow)} {id : Nat}
    (h : lookupWindow l id = none) : updateWindows f l id = l := by
  induction l with
  | nil => rfl
  | cons p rest ih =>
    by_cases hp : p.1 = id
    · simp [lookupWindow, hp] at h
    · simp only [lookupWindow, beq_iff_eq, hp, ite_false, if_false] at h
      simp [updateWindows, hp, ih h]

theorem removeWindow_of_none {l : List (Nat × EditorWindow)} {id : Nat}
    (h : lookupWindow l id = none) : removeWindow l id = l := by
  induction l with
  | nil => rfl
  | cons p rest ih =>
    by_cases hp : p.1 = id
    · simp [lookupWindow, hp] at h
    · simp only [lookupWindow, beq_iff_eq, hp, ite_false, if_false] at h
      simp [removeWindow, hp, ih h]

theorem mem_insertWindow {q : Nat × EditorWindow}
    {l : List (Nat × EditorWindow)} {id : Nat} {w : EditorWindow}
    (h : q ∈ insertWindow l id w) : q = (id, w) ∨ q ∈ l := by
  induction l with
  | nil => simpa [insertWindow] using h
  | cons p rest ih =>
    by_cases hp : p.1 = id
    · simp only [insertWindow, beq_iff_eq, hp, ite_true, if_true] at h
      rcases List.mem_cons.mp h with h | h
      · exact Or.inl h
      · exact Or.inr (List.mem_cons_of_mem _ h)
    · simp only [insertWindow, beq_iff_eq, hp, ite_false, if_false] at h
      rcases List.mem_cons.mp h with h | h
      · exact Or.inr (h ▸ List.mem_cons_self _ _)
      · rcases ih h with h | h
        · exact Or.inl h
        · exact Or.inr (List.mem_cons_of_mem _ h)

/-- Invariant piece: the global terminal never holds any record, since
create_window is only ever invoked on per-context terminals. -/
def GoodTerm (gt : Option EmbeddedTerminal) : Prop :=
  ∀ t, gt = some t → t.editors = []

/-- Invariant piece: each context's terminal keys records by its owner's
editor id only. -/
def GoodCtxs (l : List (Nat × FTXUIContext)) : Prop :=
  ∀ pr ∈ l, ∀ t, pr.2.terminal = some t → ∀ q ∈ t.editors, q.1 = pr.1

/-- Invariant piece: every registered editor has a non-null ctx. -/
def GoodActive (a : List Nat) (l : List (Nat × FTXUIContext)) : Prop :=
  ∀ e ∈ a, (getCtx l e).isSome = true

/-- Reachability invariant of the process state. -/
def GoodState (s : GlobalState) : Prop :=
  GoodTerm s.g_terminal ∧ GoodCtxs s.ctxs ∧
    GoodActive s.g_active_editors s.ctxs

theorem goodTerm_none : GoodTerm none := by
  intro t ht; cases ht

theorem goodTerm_nil : GoodTerm (some ⟨[]⟩) := by
  intro t ht
  obtain rfl : (⟨[]⟩ : EmbeddedTerminal) = t := by injection ht
  rfl

theorem goodCtxs_setCtx {l : List (Nat × FTXUIContext)} (h : GoodCtxs l)
    {e : Nat} {c' : FTXUIContext}
    (hterm : ∀ t, c'.terminal = some t → ∀ q ∈ t.editors, q.1 = e) :
    GoodCtxs (setCtx l e c') := by
  intro pr hpr t ht q hq
  rcases mem_setCtx hpr with hpr | hpr
  · subst hpr; exact hterm t ht q hq
  · exact h pr hpr t ht q hq

theorem goodCtxs_removeCtx {l : List (Nat × FTXUIContext)} (h : GoodCtxs l)
    (e : Nat) : GoodCtxs (removeCtx l e) := by
  intro pr hpr
  exact h pr (mem_removeCtx hpr).1

theorem goodActive_setCtx {a : List Nat} {l : List (Nat × FTXUIContext)}
    (h : GoodActive a l) (e : Nat) (c' : FTXUIContext) :
    GoodActive a (setCtx l e c') := by
  intro x hx
  by_cases hxe : x = e
  · subst hxe; rw [getCtx_setCtx_self]; rfl
  · rw [getCtx_setCtx_ne _ _ _ _ hxe]; exact h x hx

theorem goodActive_append {a : List Nat} {l : List (Nat × FTXUIContext)}
    {e : Nat} (h : GoodActive a l) (he : (getCtx l e).isSome = true) :
    GoodActive (a ++ [e]) l := by
  intro x hx
  rcases List.mem_append.mp hx with hx | hx
  · exact h x hx
  · have hxe : x = e := by simpa using hx
    subst hxe; exact he

theorem goodActive_filter_removeCtx {a : List Nat}
    {l : List (Nat × FTXUIContext)} {e : Nat} (h : GoodActive a l) :
    GoodActive (a.filter (fun x => x != e)) (removeCtx l e) := by
  intro x hx
  rw [List.mem_filter] at hx
  have hxe : x ≠ e := by simpa using hx.2
  rw [getCtx_removeCtx_ne _ _ _ hxe]
  exact h x hx.1

theorem goodState_lib_init {s : GlobalState} (hg : GoodState s) :
    GoodState (lib_init s).2 := by
  obtain ⟨h1, h2, h3⟩ := hg
  unfold lib_init
  cases hs : s.g_terminal with
  | none =>
    by_cases hp : s.platformOk = true
    · simp only [hp, ite_true]
      exact ⟨goodTerm_nil, h2, h3⟩
    · simp only [hp, ite_false]
      exact ⟨h1, h2, h3⟩
  | some t => exact ⟨h1, h2, h3⟩

theorem lib_init_ctxs (s : GlobalState) : (lib_init s).2.ctxs = s.ctxs := by
  unfold lib_init
  cases s.g_terminal
  · by_cases hp : s.platformOk = true <;> simp [hp]
  · rfl

theorem lib_init_active (s : GlobalState) :
    (lib_init s).2.g_active_editors = s.g_active_editors := by
  unfold lib_init
  cases s.g_terminal
  · by_cases hp : s.platformOk = true <;> simp [hp]
  · rfl

theorem goodState_guiCreate (hooks : Nat → EditorHooks) (s : GlobalState)
    (ed : Option Nat) (hg : GoodState s) :
    GoodState (ftxui_clap_guiCreateWith hooks s ed).2 := by
  cases ed with
  | none => exact hg
  | some e =>
    have hgs1 : GoodState (lib_init s).2 := goodState_lib_init hg
    unfold ftxui_clap_guiCreateWith
    rcases hli : lib_init s with ⟨ok, s1⟩
    rw [hli] at hgs1
    cases ok
    · exact hgs1
    · obtain ⟨h1, h2, h3⟩ := hgs1
      refine ⟨h1, ?_, ?_⟩
      · refine goodCtxs_setCtx (goodCtxs_setCtx h2 ?_) ?_
        · intro t ht; simp [newFTXUIContext] at ht
        · intro t ht; simp [newFTXUIContext] at ht
      · refine goodActive_setCtx ?_ e _
        refine goodActive_append (goodActive_setCtx h3 e _) ?_
        rw [getCtx_setCtx_self]; rfl

theorem goodState_guiDestroy (s : GlobalState) (ed : Option Nat)
    (hg : GoodState s) : GoodState (ftxui_clap_guiDestroyWith s ed) := by
  cases ed with
  | none => exact hg
  | some e =>
    unfold ftxui_clap_guiDestroyWith
    dsimp only
    cases hc : getCtx s.ctxs e with
    | none => exact hg
    | some c =>
      obtain ⟨h1, h2, h3⟩ := hg
      exact ⟨h1, goodCtxs_removeCtx h2 e, goodActive_filter_removeCtx h3⟩

theorem goodState_guiSetSize (hooks : Nat → EditorHooks) (s : GlobalState)
    (ed : Option Nat) (w h : Int) (hg : GoodState s) :
    GoodState (ftxui_clap_guiSetSizeWith hooks s ed w h).2 := by
  cases ed with
  | none => exact hg
  | some e =>
    unfold ftxui_clap_guiSetSizeWith
    dsimp only
    cases hc : getCtx s.ctxs e with
    | none => exact hg
    | some c =>
      obtain ⟨h1, h2, h3⟩ := hg
      refine ⟨h1, ?_, goodActive_setCtx h3 e _⟩
      refine goodCtxs_setCtx h2 ?_
      intro t ht q hq
      exact h2 (e, c) (getCtx_mem hc) t ht q hq

theorem goodState_guiShow (s : GlobalState) (ed : Option Nat)
    (hg : GoodState s) : GoodState (ftxui_clap_guiShowWith s ed).2 := by
  cases ed with
  | none => exact hg
  | some e =>
    unfold ftxui_clap_guiShowWith
    dsimp only
    cases hc : getCtx s.ctxs e with
    | none => exact hg
    | some c =>
      obtain ⟨h1, h2, h3⟩ := hg
      refine ⟨h1, ?_, goodActive_setCtx h3 e _⟩
      refine goodCtxs_setCtx h2 ?_
      intro t ht q hq
      exact h2 (e, c) (getCtx_mem hc) t ht q hq

theorem goodState_guiHide (s : GlobalState) (ed : Option Nat)
    (hg : GoodState s) : GoodState (ftxui_clap_guiHideWith s ed).2 := by
  cases ed with
  | none => exact hg
  | some e =>
    unfold ftxui_clap_guiHideWith
    dsimp only
    cases hc : getCtx s.ctxs e with
    | none => exact hg
    | some c =>
      obtain ⟨h1, h2, h3⟩ := hg
      refine ⟨h1, ?_, goodActive_setCtx h3 e _⟩
      refine goodCtxs_setCtx h2 ?_
      intro t ht q hq
      exact h2 (e, c) (getCtx_mem hc) t ht q hq

theorem goodState_attach_window {s : GlobalState} (hg : GoodState s)
    {e : Nat} {c : FTXUIContext} (ph : Option Nat) (ok : Bool) (hnd : Nat)
    (hkeys : ∀ t, c.terminal = some t → ∀ q ∈ t.editors, q.1 = e) :
    GoodState (attach_window s e c ph ok hnd).2 := by
  unfold attach_window
  cases ph with
  | none => exact hg
  | some p =>
    dsimp only
    cases hct : c.terminal with
    | none => exact hg
    | some t =>
      obtain ⟨h1, h2, h3⟩ := hg
      refine ⟨h1, ?_, goodActive_setCtx h3 e _⟩
      refine goodCtxs_setCtx h2 ?_
      intro t' ht' q hq
      have ht2 : (create_window t e p 0 0 (c.cols * 8) (c.rows * 16)
          ok hnd).2 = t' := by injection ht'
      subst ht2
      unfold create_window at hq
      cases ok
      · simp only [Bool.false_eq_true, ite_false, if_false] at hq
        exact hkeys t hct q hq
      · simp only [ite_true, if_true] at hq
        rcases mem_insertWindow hq with hq | hq
        · subst hq; rfl
        · exact hkeys t hct q hq

theorem goodState_guiSetParent (s : GlobalState) (ed : Option Nat)
    (w : Option (Option Nat)) (ok : Bool) (hnd : Nat) (hg : GoodState s) :
    GoodState (ftxui_clap_guiSetParentWith s ed w ok hnd).2 := by
  cases ed with
  | none => exact hg
  | some e =>
    unfold ftxui_clap_guiSetParentWith
    dsimp only
    cases hc : getCtx s.ctxs e with
    | none => exact hg
    | some c =>
      cases w with
      | none => exact hg
      | some ph =>
        dsimp only
        cases hct : c.terminal with
        | some t =>
          exact goodState_attach_window hg ph ok hnd
            (fun t' ht' q hq => hg.2.1 (e, c) (getCtx_mem hc) t' ht' q hq)
        | none =>
          set c1 : FTXUIContext := { c with terminal := some (⟨[]⟩ : EmbeddedTerminal) } with hc1
          have hnilkeys : ∀ t', c1.terminal = some t' →
              ∀ q ∈ t'.editors, q.1 = e := by
            intro t' ht' q hq
            rw [hc1] at ht'
            obtain rfl : (⟨[]⟩ : EmbeddedTerminal) = t' := by injection ht'
            simp at hq
          have hgs1 : GoodState { s with ctxs := setCtx s.ctxs e c1 } :=
            ⟨hg.1, goodCtxs_setCtx hg.2.1 hnilkeys,
              goodActive_setCtx hg.2.2 e _⟩
          by_cases hp : s.platformOk = true
          · rw [if_pos hp]
            exact goodState_attach_window hgs1 ph ok hnd hnilkeys
          · rw [if_neg hp]
            exact hgs1

theorem goodState_queue (s : GlobalState) (pid : Nat) (v : Int)
    (ed : Option Nat) (hg : GoodState s) :
    GoodState (queue_parameter_update s pid v ed) :=
  ⟨hg.1, hg.2.1, hg.2.2⟩

theorem goodState_render_editor_step (f : Nat → Int → Int → String)
    (st : GlobalState) (e : Nat) (hg : GoodState st) :
    GoodState (render_editor_step f st e) := by
  unfold render_editor_step
  cases hc : getCtx st.ctxs e with
  | none => exact hg
  | some c =>
    by_cases hv : (c.visible && c.component) = true
    · simp only [hv, ite_true]
      cases hT : st.g_terminal with
      | none => exact hg
      | some t =>
        obtain ⟨h1, h2, h3⟩ := hg
        have ht : t.editors = [] := h1 t hT
        refine ⟨?_, h2, h3⟩
        intro t' ht'
        have ht2 : update_content t e (f e c.cols c.rows) = t' := by
          injection ht'
        subst ht2
        show (update_content t e (f e c.cols c.rows)).editors = []
        unfold update_content
        rw [ht]
        rfl
    · simp only [hv, ite_false]
      exact hg

theorem goodState_render_pass (f : Nat → Int → Int → String) (l : List Nat) :
    ∀ st, GoodState st → GoodState (render_pass f st l) := by
  induction l with
  | nil => exact fun st h => h
  | cons a l ih =>
    intro st h
    rw [render_pass, List.foldl_cons]
    exact ih _ (goodState_render_editor_step f st a h)

theorem goodState_render_iteration (f : Nat → Int → Int → String)
    (s : GlobalState) (hg : GoodState s) :
    GoodState (render_iteration f s) := by
  unfold render_iteration
  exact goodState_render_pass f _ _ ⟨hg.1, hg.2.1, hg.2.2⟩

theorem goodState_step (hooks : Nat → EditorHooks)
    (renderFn : Nat → Int → Int → String) (s : GlobalState) (op : Op)
    (hg : GoodState s) : GoodState (step hooks renderFn s op) := by
  cases op with
  | guiCreate ed => exact goodState_guiCreate hooks s ed hg
  | guiDestroy ed => exact goodState_guiDestroy s ed hg
  | guiSetParent ed w ok hnd => exact goodState_guiSetParent s ed w ok hnd hg
  | guiSetSize ed w h => exact goodState_guiSetSize hooks s ed w h hg
  | guiShow ed => exact goodState_guiShow s ed hg
  | guiHide ed => exact goodState_guiHide s ed hg
  | guiGetSize ed => exact hg
  | queueParam pid v ed => exact goodState_queue s pid v ed hg
  | renderIter => exact goodState_render_iteration renderFn s hg

theorem goodState_run (hooks : Nat → EditorHooks)
    (renderFn : Nat → Int → Int → String) (ops : List Op) :
    ∀ s, GoodState s → GoodState (run hooks renderFn s ops) := by
  induction ops with
  | nil => exact fun s h => h
  | cons op rest ih =>
    intro s h
    exact ih _ (goodState_step hooks renderFn s op h)

theorem goodState_init (p : Bool) : GoodState (initState p) := by
  refine ⟨goodTerm_none, ?_, ?_⟩ <;> intro x hx <;> simp [initState] at hx

theorem destroy_clears {s : GlobalState} (hg : GoodState s) (e : Nat) :
    recordAbsent (ftxui_clap_guiDestroyWith s (some e)) e = true ∧
    ((ftxui_clap_guiDestroyWith s (some e)).g_active_editors.contains e)
      = false := by
  obtain ⟨h1, h2, h3⟩ := hg
  unfold ftxui_clap_guiDestroyWith
  dsimp only
  cases hc : getCtx s.ctxs e with
  | none =>
    constructor
    · unfold recordAbsent
      rw [Bool.and_eq_true]
      constructor
      · cases hT : s.g_terminal with
        | none => rfl
        | some t =>
          have hnil := h1 t hT
          simp [findWindow, hnil, lookupWindow]
      · rw [List.all_eq_true]
        intro pr hpr
        cases hT : pr.2.terminal with
        | none => rfl
        | some t =>
          have hne : ∀ q ∈ t.editors, q.1 ≠ e := by
            intro q hq
            rw [h2 pr hpr t hT q hq]
            exact getCtx_eq_none hc pr hpr
          simp [findWindow, lookupWindow_eq_none_of _ _ hne]
    · rw [Bool.eq_false_iff]
      intro hmem
      have hm : e ∈ s.g_active_editors := List.elem_iff.mp hmem
      have := h3 e hm
      rw [hc] at this
      simp at this
  | some c =>
    constructor
    · unfold recordAbsent
      rw [Bool.and_eq_true]
      constructor
      · cases hT : s.g_terminal with
        | none => rfl
        | some t =>
          have hnil := h1 t hT
          simp [findWindow, hnil, lookupWindow]
      · rw [List.all_eq_true]
        intro pr hpr
        obtain ⟨hprl, hpre⟩ := mem_removeCtx hpr
        cases hT : pr.2.terminal with
        | none => rfl
        | some t =>
          have hne : ∀ q ∈ t.editors, q.1 ≠ e := by
            intro q hq
            rw [h2 pr hprl t hT q hq]
            exact hpre
          simp [findWindow, lookupWindow_eq_none_of _ _ hne]
    · rw [Bool.eq_false_iff]
      intro hmem
      have hm : e ∈ s.g_active_editors.filter (fun x => x != e) :=
        List.elem_iff.mp hmem
      rw [List.mem_filter] at hm
      simp at hm

theorem active_attach_window (s : GlobalState) (e : Nat) (c : FTXUIContext)
    (ph : Option Nat) (ok : Bool) (hnd : Nat) :
    (attach_window s e c ph ok hnd).2.g_active_editors
      = s.g_active_editors := by
  unfold attach_window
  cases ph with
  | none => rfl
  | some p =>
    dsimp only
    cases c.terminal <;> rfl

theorem active_guiSetParent (s : GlobalState) (ed : Option Nat)
    (w : Option (Option Nat)) (ok : Bool) (hnd : Nat) :
    (ftxui_clap_guiSetParentWith s ed w ok hnd).2.g_active_editors
      = s.g_active_editors := by
  cases ed with
  | none => rfl
  | some e =>
    unfold ftxui_clap_guiSetParentWith
    dsimp only
    cases hc : getCtx s.ctxs e with
    | none => rfl
    | some c =>
      cases w with
      | none => rfl
      | some ph =>
        dsimp only
        cases hct : c.terminal with
        | some t => exact active_attach_window s e c ph ok hnd
        | none =>
          by_cases hp : s.platformOk = true
          · rw [if_pos hp]
            exact active_attach_window _ e _ ph ok hnd
          · rw [if_neg hp]

theorem active_guiSetSize (hooks : Nat → EditorHooks) (s : GlobalState)
    (ed : Option Nat) (w h : Int) :
    (ftxui_clap_guiSetSizeWith hooks s ed w h).2.g_active_editors
      = s.g_active_editors := by
  cases ed with
  | none => rfl
  | some e =>
    unfold ftxui_clap_guiSetSizeWith
    dsimp only
    cases hc : getCtx s.ctxs e <;> rfl

theorem active_guiShow (s : GlobalState) (ed : Option Nat) :
    (ftxui_clap_guiShowWith s ed).2.g_active_editors = s.g_active_editors := by
  cases ed with
  | none => rfl
  | some e =>
    unfold ftxui_clap_guiShowWith
    dsimp only
    cases hc : getCtx s.ctxs e <;> rfl

theorem active_guiHide (s : GlobalState) (ed : Option Nat) :
    (ftxui_clap_guiHideWith s ed).2.g_active_editors = s.g_active_editors := by
  cases ed with
  | none => rfl
  | some e =>
    unfold ftxui_clap_guiHideWith
    dsimp only
    cases hc : getCtx s.ctxs e <;> rfl

theorem active_render_editor_step (f : Nat → Int → Int → String)
    (st : GlobalState) (e : Nat) :
    (render_editor_step f st e).g_active_editors = st.g_active_editors := by
  unfold render_editor_step
  cases hc : getCtx st.ctxs e with
  | none => rfl
  | some c =>
    dsimp only
    by_cases hv : (c.visible && c.component) = true
    · rw [if_pos hv]
      cases hT : st.g_terminal <;> rfl
    · rw [if_neg hv]

theorem ctxs_render_editor_step (f : Nat → Int → Int → String)
    (st : GlobalState) (e : Nat) :
    (render_editor_step f st e).ctxs = st.ctxs := by
  unfold render_editor_step
  cases hc : getCtx st.ctxs e with
  | none => rfl
  | some c =>
    dsimp only
    by_cases hv : (c.visible && c.component) = true
    · rw [if_pos hv]
      cases hT : st.g_terminal <;> rfl
    · rw [if_neg hv]

theorem active_render_pass (f : Nat → Int → Int → String) (l : List Nat) :
    ∀ st, (render_pass f st l).g_active_editors = st.g_active_editors := by
  induction l with
  | nil => intro st; rfl
  | cons a l ih =>
    intro st
    rw [render_pass, List.foldl_cons]
    exact (ih _).trans (active_render_editor_step f st a)

theorem active_render_iteration (f : Nat → Int → Int → String)
    (s : GlobalState) :
    (render_iteration f s).g_active_editors = s.g_active_editors := by
  unfold render_iteration
  exact active_render_pass f _ _

theorem nodup_run (hooks : Nat → EditorHooks)
    (renderFn : Nat → Int → Int → String) (ops : List Op) :
    ∀ s, GoodState s → s.g_active_editors.Nodup →
      safeOps hooks renderFn s ops = true →
      (run hooks renderFn s ops).g_active_editors.Nodup := by
  induction ops with
  | nil => intro s _ hnodup _; exact hnodup
  | cons op rest ih =>
    intro s hg hnodup hsafe
    simp only [safeOps, Bool.and_eq_true] at hsafe
    obtain ⟨hcond, hrest⟩ := hsafe
    refine ih _ (goodState_step hooks renderFn s op hg) ?_ hrest
    cases op with
    | guiCreate ed =>
      cases ed with
      | none => exact hnodup
      | some e =>
        have hnone : getCtx s.ctxs e = none := by
          simpa [Option.isNone_iff_eq_none] using hcond
        have hnotmem : e ∉ s.g_active_editors := by
          intro hmem
          have hs := hg.2.2 e hmem
          rw [hnone] at hs
          simp at hs
        show ((ftxui_clap_guiCreateWith hooks s (some e)).2.g_active_editors).Nodup
        unfold ftxui_clap_guiCreateWith
        dsimp only
        rcases hli : lib_init s with ⟨ok, s1⟩
        have hact : s1.g_active_editors = s.g_active_editors := by
          have hh := lib_init_active s
          rw [hli] at hh
          exact hh
        cases ok
        · dsimp only
          rw [hact]
          exact hnodup
        · dsimp only
          rw [hact, List.nodup_append]
          refine ⟨hnodup, List.nodup_singleton e, ?_⟩
          intro a ha hae
          have : a = e := by simpa using hae
          subst this
          exact hnotmem ha
    | guiDestroy ed =>
      cases ed with
      | none => exact hnodup
      | some e =>
        show ((ftxui_clap_guiDestroyWith s (some e)).g_active_editors).Nodup
        unfold ftxui_clap_guiDestroyWith
        dsimp only
        cases hc : getCtx s.ctxs e with
        | none => exact hnodup
        | some c => exact hnodup.filter _
    | guiSetParent ed w ok handle =>
      show ((ftxui_clap_guiSetParentWith s ed w ok handle).2.g_active_editors).Nodup
      rw [active_guiSetParent]
      exact hnodup
    | guiSetSize ed w h =>
      show ((ftxui_clap_guiSetSizeWith hooks s ed w h).2.g_active_editors).Nodup
      rw [active_guiSetSize]
      exact hnodup
    | guiShow ed =>
      show ((ftxui_clap_guiShowWith s ed).2.g_active_editors).Nodup
      rw [active_guiShow]
      exact hnodup
    | guiHide ed =>
      show ((ftxui_clap_guiHideWith s ed).2.g_active_editors).Nodup
      rw [active_guiHide]
      exact hnodup
    | guiGetSize ed => exact hnodup
    | queueParam pid v ed => exact hnodup
    | renderIter =>
      show ((render_iteration renderFn s).g_active_editors).Nodup
      rw [active_render_iteration]
      exact hnodup

/-- C2: one execution of the render loop's drain step invokes
onParameterUpdate on each queued update's non-null editor exactly once, in
FIFO arrival order, with duplicates preserved (no coalescing), and leaves
the queue empty: the invocation sequence equals the sequence of non-null
editors of the queue in arrival order, and the remaining queue is empty. -/
theorem c2_drain_fifo_exact (q : List parameter_update) :
    drain_queue q = (q.filterMap (fun u => u.editor), []) := by
  induction q with
  | nil => rfl
  | cons u rest ih =>
    cases hu : u.editor with
    | none => simp [drain_queue, hu, List.filterMap_cons, ih]
    | some e => simp [drain_queue, hu, List.filterMap_cons, ih]

/-- C3: after any sequence of boundary operations followed by a
guiDestroyWith on editor e (in particular any sequence in which e was
created earlier), no terminal registry holds a window record keyed by e,
and e is not in the active-editor set. -/
theorem c3_destroy_clears_registry (hooks : Nat → EditorHooks)
    (renderFn : Nat → Int → Int → String) (p : Bool) (ops : List Op)
    (e : Nat) :
    recordAbsent (ftxui_clap_guiDestroyWith
      (run hooks renderFn (initState p) ops) (some e)) e = true ∧
    ((ftxui_clap_guiDestroyWith (run hooks renderFn (initState p) ops)
      (some e)).g_active_editors.contains e) = false :=
  destroy_clears (goodState_run hooks renderFn ops _ (goodState_init p)) e

/-- C4: update_content, resize_window, show_window and remove_editor
addressed to an identifier absent from the registry each return the
registry unchanged (they are total functions, so no failure mode exists
besides the returned value). -/
theorem c4_unknown_id_noop (t : EmbeddedTerminal) (id : Nat) (ct : String)
    (w h : Int) (v : Bool) (habs : findWindow t id = none) :
    update_content t id ct = t ∧ resize_window t id w h = t ∧
    show_window t id v = t ∧ remove_editor t id = t := by
  unfold findWindow at habs
  refine ⟨?_, ?_, ?_, ?_⟩
  · unfold update_content
    rw [updateWindows_of_none _ habs]
  · unfold resize_window
    rw [updateWindows_of_none _ habs]
  · unfold show_window
    rw [updateWindows_of_none _ habs]
  · unfold remove_editor
    rw [removeWindow_of_none habs]

/-- Witness for C4 at a registry holding only id 1, queried at id 0. -/
theorem c4_unknown_id_noop_witness :
    findWindow (⟨[(1, sampleWindow)]⟩ : EmbeddedTerminal) 0 = none ∧
    (update_content ⟨[(1, sampleWindow)]⟩ 0 "x" = ⟨[(1, sampleWindow)]⟩ ∧
     resize_window ⟨[(1, sampleWindow)]⟩ 0 3 4 = ⟨[(1, sampleWindow)]⟩ ∧
     show_window ⟨[(1, sampleWindow)]⟩ 0 true = ⟨[(1, sampleWindow)]⟩ ∧
     remove_editor ⟨[(1, sampleWindow)]⟩ 0 = ⟨[(1, sampleWindow)]⟩) :=
  ⟨by decide, c4_unknown_id_noop ⟨[(1, sampleWindow)]⟩ 0 "x" 3 4 true
    (by decide)⟩

/-- C8 (amended): along any sequence of boundary operations in which
guiCreateWith is never invoked on an editor that already has a live
context, the active-editor list never contains the same editor twice.
(The unamended claim fails: re-creating a live editor duplicates its
entry, see the counterexample.) -/
theorem c8_no_duplicate_registration (hooks : Nat → EditorHooks)
    (renderFn : Nat → Int → Int → String) (p : Bool) (ops : List Op)
    (hsafe : safeOps hooks renderFn (initState p) ops = true) :
    ((run hooks renderFn (initState p) ops).g_active_editors).Nodup :=
  nodup_run hooks renderFn ops _ (goodState_init p) List.nodup_nil hsafe

/-- Counterexample to C8 as stated: two guiCreateWith calls on the same
editor leave it twice in the active-editor set. -/
theorem c8_duplicate_counterexample :
    (run sampleHooks sampleRenderFn (initState true)
      [Op.guiCreate (some 0), Op.guiCreate (some 0)]).g_active_editors
      = [0, 0] ∧
    ¬ ((run sampleHooks sampleRenderFn (initState true)
      [Op.guiCreate (some 0), Op.guiCreate (some 0)]).g_active_editors).Nodup
      := by
  constructor
  · decide
  · decide

/-- Witness for C8: a create-destroy-create sequence respects the
discipline and yields a duplicate-free active set. -/
theorem c8_no_duplicate_registration_witness :
    safeOps sampleHooks sampleRenderFn (initState true)
      [Op.guiCreate (some 0), Op.guiDestroy (some 0), Op.guiCreate (some 0)]
      = true ∧
    ((run sampleHooks sampleRenderFn (initState true)
      [Op.guiCreate (some 0), Op.guiDestroy (some 0),
        Op.guiCreate (some 0)]).g_active_editors).Nodup :=
  ⟨by decide, c8_no_duplicate_registration sampleHooks sampleRenderFn true _
    (by decide)⟩

/-- C10: with a null editor pointer, or a null stored ctx for any
operation other than create, every boundary operation returns false (and
guiDestroyWith returns), leaves the whole process state unchanged, and
guiGetSizeWith leaves its out-parameters unwritten. -/
theorem c10_null_guards (hooks : Nat → EditorHooks) (s : GlobalState)
    (ed : Option Nat) (window : Option (Option Nat)) (cok : Bool)
    (hnd : Nat) (w h wd ht : Int)
    (hnull : ed = none ∨ ∃ e, ed = some e ∧ getCtx s.ctxs e = none) :
    (ed = none → ftxui_clap_guiCreateWith hooks s ed = (false, s)) ∧
    ftxui_clap_guiSetParentWith s ed window cok hnd = (false, s) ∧
    ftxui_clap_guiSetSizeWith hooks s ed w h = (false, s) ∧
    ftxui_clap_guiShowWith s ed = (false, s) ∧
    ftxui_clap_guiHideWith s ed = (false, s) ∧
    ftxui_clap_guiGetSizeWith s ed wd ht = (false, wd, ht) ∧
    ftxui_clap_guiDestroyWith s ed = s := by
  rcases hnull with rfl | ⟨e, rfl, hctx⟩
  · exact ⟨fun _ => rfl, rfl, rfl, rfl, rfl, rfl, rfl⟩
  · refine ⟨(fun hne => by cases hne), ?_, ?_, ?_, ?_, ?_, ?_⟩
    · unfold ftxui_clap_guiSetParentWith
      dsimp only
      rw [hctx]
    · unfold ftxui_clap_guiSetSizeWith
      dsimp only
      rw [hctx]
    · unfold ftxui_clap_guiShowWith
      dsimp only
      rw [hctx]
    · unfold ftxui_clap_guiHideWith
      dsimp only
      rw [hctx]
    · unfold ftxui_clap_guiGetSizeWith
      dsimp only
      rw [hctx]
    · unfold ftxui_clap_guiDestroyWith
      dsimp only
      rw [hctx]

/-- Witness for C10 at a null editor pointer on the fresh state. -/
theorem c10_null_guards_witness :
    ((none : Option Nat) = none →
      ftxui_clap_guiCreateWith sampleHooks (initState true) none
        = (false, initState true)) ∧
    ftxui_clap_guiSetParentWith (initState true) none none true 0
      = (false, initState true) ∧
    ftxui_clap_guiSetSizeWith sampleHooks (initState true) none 0 0
      = (false, initState true) ∧
    ftxui_clap_guiShowWith (initState true) none = (false, initState true) ∧
    ftxui_clap_guiHideWith (initState true) none = (false, initState true) ∧
    ftxui_clap_guiGetSizeWith (initState true) none 7 9 = (false, 7, 9) ∧
    ftxui_clap_guiDestroyWith (initState true) none = initState true :=
  c10_null_guards sampleHooks (initState true) none none true 0 0 0 7 9
    (Or.inl rfl)

theorem findWindow_update_content_ne (t : EmbeddedTerminal) (id e : Nat)
    (ct : String) (h : e ≠ id) :
    findWindow (update_content t id ct) e = findWindow t e := by
  unfold findWindow update_content
  dsimp only
  exact lookupWindow_updateWindows_ne _ _ _ _ h

theorem registryContent_render_editor_step (f : Nat → Int → Int → String)
    (st : GlobalState) (a e : Nat) (c : FTXUIContext)
    (hc : getCtx st.ctxs e = some c)
    (hvc : c.visible = false ∨ c.component = false) :
    registryContent (render_editor_step f st a) e = registryContent st e := by
  unfold render_editor_step
  cases hca : getCtx st.ctxs a with
  | none => rfl
  | some ca =>
    dsimp only
    by_cases hv : (ca.visible && ca.component) = true
    · rw [if_pos hv]
      cases hT : st.g_terminal with
      | none => rfl
      | some t =>
        have hae : a ≠ e := by
          intro hae
          subst hae
          rw [hc] at hca
          injection hca with hca
          subst hca
          rcases hvc with hvc | hvc <;> rw [hvc] at hv <;> simp at hv
        dsimp only
        simp only [registryContent, hT,
          findWindow_update_content_ne t a e _ (Ne.symm hae)]
    · rw [if_neg hv]

theorem registryContent_render_pass (f : Nat → Int → Int → String)
    (e : Nat) (l : List Nat) :
    ∀ (st : GlobalState) (c : FTXUIContext), getCtx st.ctxs e = some c →
      c.visible = false ∨ c.component = false →
      registryContent (render_pass f st l) e = registryContent st e := by
  induction l with
  | nil => intro st c _ _; rfl
  | cons a l ih =>
    intro st c hc hvc
    rw [render_pass, List.foldl_cons]
    have hc' : getCtx (render_editor_step f st a).ctxs e = some c := by
      rw [ctxs_render_editor_step]
      exact hc
    exact (ih _ c hc' hvc).trans
      (registryContent_render_editor_step f st a e c hc hvc)

/-- C9: one render-loop iteration leaves the stored registry content of
every editor whose context is hidden or lacks a component unchanged (only
visible editors with a component are rendered, each under its own key). -/
theorem c9_hidden_editor_content_preserved
    (renderFn : Nat → Int → Int → String) (s : GlobalState) (e : Nat)
    (c : FTXUIContext) (hc : getCtx s.ctxs e = some c)
    (hvc : c.visible = false ∨ c.component = false) :
    registryContent (render_iteration renderFn s) e = registryContent s e := by
  unfold render_iteration
  dsimp only
  exact registryContent_render_pass renderFn e _ _ c hc hvc

/-- Witness for C9: a hidden editor owning a record keeps its content
across an iteration whose component renders fresh text. -/
theorem c9_hidden_editor_content_preserved_witness :
    registryContent (render_iteration sampleRenderNew sampleRegistryState) 0
      = registryContent sampleRegistryState 0 :=
  c9_hidden_editor_content_preserved sampleRenderNew sampleRegistryState 0
    sampleHiddenCtx (by decide) (Or.inl (by decide))

theorem defaultAdjustSize_true (x y : Int) :
    (defaultAdjustSize x y).1 = true := rfl

theorem defaultAdjustSize_bounds (x y : Int) :
    40 ≤ (defaultAdjustSize x y).2.1 ∧ (defaultAdjustSize x y).2.1 ≤ 120 ∧
    10 ≤ (defaultAdjustSize x y).2.2 ∧ (defaultAdjustSize x y).2.2 ≤ 40 := by
  unfold defaultAdjustSize
  dsimp only
  refine ⟨?_, ?_, ?_, ?_⟩ <;> (split_ifs <;> omega)

theorem defaultAdjustSize_id {x y : Int} (h40 : 40 ≤ x) (h120 : x ≤ 120)
    (h10 : 10 ≤ y) (h40r : y ≤ 40) : defaultAdjustSize x y = (true, x, y) := by
  unfold defaultAdjustSize
  dsimp only
  split_ifs <;> first | rfl | (exfalso; omega)

theorem clamp_cols_bounds (x : Int) :
    40 ≤ max 40 (min 120 x) ∧ max 40 (min 120 x) ≤ 120 :=
  ⟨le_max_left _ _, max_le (by norm_num) (min_le_left _ _)⟩

theorem clamp_rows_bounds (y : Int) :
    10 ≤ max 10 (min 40 y) ∧ max 10 (min 40 y) ≤ 40 :=
  ⟨le_max_left _ _, max_le (by norm_num) (min_le_left _ _)⟩

theorem clamp_cols_id {x : Int} (h1 : 40 ≤ x) (h2 : x ≤ 120) :
    max 40 (min 120 x) = x := by
  rw [min_eq_right h2, max_eq_right h1]

theorem clamp_rows_id {y : Int} (h1 : 10 ≤ y) (h2 : y ≤ 40) :
    max 10 (min 40 y) = y := by
  rw [min_eq_right h2, max_eq_right h1]

/-- The context stored by guiSetSizeWith under the library-default
adjustSize: cols and rows are the default-adjusted clamped pair for the
requested pixel size. -/
def defaultAdjusted (c : FTXUIContext) (w h : Int) : FTXUIContext :=
  { c with
    cols := (defaultAdjustSize (max 40 (min 120 (w.tdiv 8)))
      (max 10 (min 40 (h.tdiv 16)))).2.1,
    rows := (defaultAdjustSize (max 40 (min 120 (w.tdiv 8)))
      (max 10 (min 40 (h.tdiv 16)))).2.2 }

theorem defaultAdjusted_bounds (c : FTXUIContext) (w h : Int) :
    40 ≤ (defaultAdjusted c w h).cols ∧ (defaultAdjusted c w h).cols ≤ 120 ∧
    10 ≤ (defaultAdjusted c w h).rows ∧ (defaultAdjusted c w h).rows ≤ 40 := by
  unfold defaultAdjusted
  dsimp only
  exact defaultAdjustSize_bounds _ _

/-- Evaluation of guiSetSizeWith on an editor whose adjustSize hook is the
library default: the stored pair is the default-adjusted clamped pair. -/
theorem guiSetSize_default_eq (hooks : Nat → EditorHooks) (s : GlobalState)
    (e : Nat) (c : FTXUIContext) (w h : Int)
    (hadj : (hooks e).adjustSize = defaultAdjustSize)
    (hc : getCtx s.ctxs e = some c) :
    ftxui_clap_guiSetSizeWith hooks s (some e) w h =
      (true, { s with ctxs := setCtx s.ctxs e (defaultAdjusted c w h) }) := by
  unfold ftxui_clap_guiSetSizeWith
  dsimp only
  rw [hc]
  dsimp only
  rw [hadj, if_pos (defaultAdjustSize_true _ _)]
  rfl

/-- C1: on a created editor whose adjustSize and getPreferredSize hooks
are the library defaults, guiSetSizeWith returns true for every pixel
width and height, and the stored column/row pair afterwards lies within
[40, 120] times [10, 40]. -/
theorem c1_set_size_within_bounds (hooks : Nat → EditorHooks)
    (s : GlobalState) (e : Nat) (c : FTXUIContext) (w h : Int)
    (hadj : (hooks e).adjustSize = defaultAdjustSize)
    (_hpref : (hooks e).getPreferredSize = defaultGetPreferredSize)
    (hc : getCtx s.ctxs e = some c) :
    (ftxui_clap_guiSetSizeWith hooks s (some e) w h).1 = true ∧
    ∃ c', getCtx (ftxui_clap_guiSetSizeWith hooks s (some e) w h).2.ctxs e
        = some c' ∧
      40 ≤ c'.cols ∧ c'.cols ≤ 120 ∧ 10 ≤ c'.rows ∧ c'.rows ≤ 40 := by
  rw [guiSetSize_default_eq hooks s e c w h hadj hc]
  obtain ⟨hb1, hb2, hb3, hb4⟩ := defaultAdjusted_bounds c w h
  refine ⟨rfl, defaultAdjusted c w h, ?_, hb1, hb2, hb3, hb4⟩
  exact getCtx_setCtx_self _ _ _

/-- Witness for C1 at width 0 and height 1000 on a fresh 80 by 24
context. -/
theorem c1_set_size_within_bounds_witness :
    (ftxui_clap_guiSetSizeWith sampleHooks sampleSizeState (some 0) 0
      1000).1 = true ∧
    ∃ c', getCtx (ftxui_clap_guiSetSizeWith sampleHooks sampleSizeState
        (some 0) 0 1000).2.ctxs 0 = some c' ∧
      40 ≤ c'.cols ∧ c'.cols ≤ 120 ∧ 10 ≤ c'.rows ∧ c'.rows ≤ 40 :=
  c1_set_size_within_bounds sampleHooks sampleSizeState 0 newFTXUIContext
    0 1000 rfl rfl (by decide)

/-- Evaluation of guiGetSizeWith on a live context. -/
theorem guiGetSize_eq (s : GlobalState) (e : Nat) (c : FTXUIContext)
    (wd ht : Int) (hc : getCtx s.ctxs e = some c) :
    ftxui_clap_guiGetSizeWith s (some e) wd ht
      = (true, c.cols * 8, c.rows * 16) := by
  unfold ftxui_clap_guiGetSizeWith
  dsimp only
  rw [hc]

theorem defaultAdjusted_fixed (c1 : FTXUIContext) (hb1 : 40 ≤ c1.cols)
    (hb2 : c1.cols ≤ 120) (hb3 : 10 ≤ c1.rows) (hb4 : c1.rows ≤ 40) :
    defaultAdjusted c1 (c1.cols * 8) (c1.rows * 16) = c1 := by
  unfold defaultAdjusted
  rw [Int.mul_tdiv_cancel _ (by norm_num : (8 : Int) ≠ 0),
      Int.mul_tdiv_cancel _ (by norm_num : (16 : Int) ≠ 0),
      clamp_cols_id hb1 hb2, clamp_rows_id hb3 hb4,
      defaultAdjustSize_id hb1 hb2 hb3 hb4]

/-- The set-size, get-size, set-size round trip of C6: first the state
after one guiSetSizeWith, then the state after re-submitting the pixel
pair reported by guiGetSizeWith on it. -/
def set_get_set (hooks : Nat → EditorHooks) (s : GlobalState) (e : Nat)
    (w h : Int) : GlobalState × GlobalState :=
  let s1 := (ftxui_clap_guiSetSizeWith hooks s (some e) w h).2
  let g := ftxui_clap_guiGetSizeWith s1 (some e) 0 0
  (s1, (ftxui_clap_guiSetSizeWith hooks s1 (some e) g.2.1 g.2.2).2)

/-- C6: on an editor whose adjustSize hook is the library default, after
any guiSetSizeWith the pair reported by guiGetSizeWith, re-submitted to
guiSetSizeWith, leaves the stored column/row pair unchanged: the stored
context is a fixed point of the get/set round trip. -/
theorem c6_size_fixed_point (hooks : Nat → EditorHooks) (s : GlobalState)
    (e : Nat) (c : FTXUIContext) (w h : Int)
    (hadj : (hooks e).adjustSize = defaultAdjustSize)
    (hc : getCtx s.ctxs e = some c) :
    ∃ c1, getCtx (set_get_set hooks s e w h).1.ctxs e = some c1 ∧
      getCtx (set_get_set hooks s e w h).2.ctxs e = some c1 := by
  obtain ⟨hb1, hb2, hb3, hb4⟩ := defaultAdjusted_bounds c w h
  unfold set_get_set
  dsimp only
  rw [guiSetSize_default_eq hooks s e c w h hadj hc]
  dsimp only
  refine ⟨defaultAdjusted c w h, getCtx_setCtx_self _ _ _, ?_⟩
  rw [guiGetSize_eq _ e (defaultAdjusted c w h) 0 0
    (getCtx_setCtx_self _ _ _)]
  dsimp only
  rw [guiSetSize_default_eq hooks _ e (defaultAdjusted c w h) _ _ hadj
    (getCtx_setCtx_self _ _ _)]
  dsimp only
  rw [defaultAdjusted_fixed _ hb1 hb2 hb3 hb4]
  exact getCtx_setCtx_self _ _ _

/-- Witness for C6 at width 100 and height 50. -/
theorem c6_size_fixed_point_witness :
    ∃ c1, getCtx (set_get_set sampleHooks sampleSizeState 0 100 50).1.ctxs 0
        = some c1 ∧
      getCtx (set_get_set sampleHooks sampleSizeState 0 100 50).2.ctxs 0
        = some c1 :=
  c6_size_fixed_point sampleHooks sampleSizeState 0 newFTXUIContext 100 50
    rfl (by decide)

theorem fst_le_of_mem_enumFrom {α : Type} {l : List α} {n : Nat}
    {p : Nat × α} (h : p ∈ l.enumFrom n) : n ≤ p.1 := by
  induction l generalizing n with
  | nil => simp at h
  | cons a as ih =>
    rw [List.enumFrom_cons] at h
    rcases List.mem_cons.mp h with h | h
    · subst h; exact Nat.le_refl n
    · exact Nat.le_of_succ_le (ih h)

theorem renderLines_eq_filter (ch h : Int) (hch : 0 < ch)
    (lines : List String) :
    ∀ j : Nat, renderLines ch h lines (ch * ((j : Int) + 1)) =
      ((lines.enumFrom j).filter (fun p =>
        decide (ch * ((p.1 : Int) + 1) ≤ h) && !(p.2 == ""))).map
        (fun p => p.2) := by
  induction lines with
  | nil => intro j; simp [renderLines]
  | cons line rest ih =>
    intro j
    rw [List.enumFrom_cons, List.filter_cons]
    by_cases hy : ch * ((j : Int) + 1) > h
    · have hnil : (rest.enumFrom (j + 1)).filter (fun p =>
          decide (ch * ((p.1 : Int) + 1) ≤ h) && !(p.2 == "")) = [] := by
        rw [List.filter_eq_nil_iff]
        intro p hp
        have hj : j + 1 ≤ p.1 := fst_le_of_mem_enumFrom hp
        have hlt : h < ch * ((p.1 : Int) + 1) := by
          refine lt_of_lt_of_le hy (mul_le_mul_of_nonneg_left ?_ hch.le)
          have hji : (j : Int) ≤ (p.1 : Int) := by
            exact_mod_cast Nat.le_of_succ_le hj
          omega
        simp [not_le.mpr hlt]
      simp only [renderLines, if_pos hy]
      simp [not_le.mpr hy, hnil]
    · have hle : ch * ((j : Int) + 1) ≤ h := not_lt.mp hy
      have harith2 : ch * ((j : Int) + 1) + ch
          = ch * (((j + 1 : Nat) : Int) + 1) := by
        push_cast
        ring
      by_cases hline : line = ""
      · subst hline
        simp [renderLines, hy, hle]
        rw [harith2]
        exact ih (j + 1)
      · simp [renderLines, hy, hline, hle]
        rw [harith2]
        exact ih (j + 1)

theorem renderLines_from_start (ch h : Int) (hch : 0 < ch)
    (lines : List String) :
    renderLines ch h lines ch = ((lines.enum.filter (fun p =>
      decide (ch * ((p.1 : Int) + 1) ≤ h) && !(p.2 == ""))).map
      (fun p => p.2)) := by
  have hj := renderLines_eq_filter ch h hch lines 0
  have h0 : ch * (((0 : Nat) : Int) + 1) = ch := by
    push_cast
    ring
  rw [h0] at hj
  exact hj

/-- C5 (amended): the Linux renderer splits the content into lines on
line breaks and draws, top to bottom, exactly the nonempty lines whose
vertical extent ch*(i+1) stays within the window height, dropping the
rest; the Windows renderer instead hands the entire content to a single
draw call, independent of the window height (so the line-dropping
description holds of the Linux backend, not of the Windows one). -/
theorem c5_render_line_clipping (ch h : Int) (content : String)
    (hch : 0 < ch) :
    linux_render_drawn ch h content =
      (((parse_terminal_content content).enum.filter (fun p =>
        decide (ch * ((p.1 : Int) + 1) ≤ h) && !(p.2 == ""))).map
        (fun p => p.2)) ∧
    windowsRenderDrawnText true content = some content := by
  constructor
  · exact renderLines_from_start ch h hch (parse_terminal_content content)
  · rfl

/-- Witness for C5: rendering three lines into a window fitting two lines
of height 16 draws the first two and drops the third. -/
theorem c5_render_line_clipping_witness :
    linux_render_drawn 16 32 "a\nb\nc" = ["a", "b"] :=
  (c5_render_line_clipping 16 32 "a\nb\nc" (by norm_num)).1.trans (by decide)

/-- Counterexample to C5 as stated for the Windows backend: the whole
content, the third line included, is handed to the draw call regardless of
any window height, so no line is dropped by the code. -/
theorem c5_windows_counterexample :
    windowsRenderDrawnText true "a\nb\nc" = some "a\nb\nc" ∧
    windowsRenderDrawnText true "a\nb\nc" ≠ some "a\nb" :=
  ⟨rfl, by decide⟩

/-- C7 (amended): on the Linux backend a null parent handle falls back to
the default root window, and creation succeeds whenever the display is
open, the X window creation succeeds and the renderer initializes; on the
Windows backend create_window with a null parent always fails. -/
theorem c7_null_parent_backends (d droot child : Nat)
    (xcreate : Nat → Option Nat) (wcreate : Nat → Option Nat) (ri : Bool)
    (hxc : xcreate droot = some child) :
    linux_platform_create_window (some d) droot none xcreate true
      = some (child, droot) ∧
    windows_platform_create_window none wcreate ri = none := by
  constructor
  · simp [linux_platform_create_window, hxc]
  · rfl

/-- Witness for C7 with a succeeding X window creation returning handle
parent plus one under default root 5. -/
theorem c7_null_parent_backends_witness :
    ((fun p : Nat => some (p + 1)) 5 : Option Nat) = some 6 ∧
    (linux_platform_create_window (some 1) 5 none
        (fun p : Nat => some (p + 1)) true = some (6, 5) ∧
      windows_platform_create_window none (fun p : Nat => some (p + 1))
        false = none) :=
  ⟨rfl, c7_null_parent_backends 1 5 6 (fun p : Nat => some (p + 1))
    (fun p : Nat => some (p + 1)) false rfl⟩

/-- Counterexample to C7 as stated: on the Windows backend, even with the
platform fully available (CreateWindowEx succeeding and the renderer
initializing), a null parent makes create_window fail instead of using a
default root. -/
theorem c7_windows_null_parent_counterexample :
    windows_platform_create_window none (fun p : Nat => some (p + 1)) true
      = none := rfl

end ClapFtxui
